import Mathlib

/-!
Verification of the content-negotiation and payload-coercion layer of the
fdk-rust repository (src/coercions.rs), shallowly embedded in Lean 4.

Bytes are modelled as `List Nat` (each element intended `< 256`, matching
Rust's `Vec<u8>`); strings as Lean `String`.  The external serde format
crates (serde_json, serde_yaml, serde_xml_rs, serde_plain, serde_urlencoded)
are not part of this repository: the generic trait implementations are
embedded as functions parameterised over codec records (`Deserializer`,
`Serializer`), and small concrete models of serde_plain / serde_json at
target type `String` are provided where claims need concrete codec
behaviour.
-/

/-- Modelled from the spec: `FunctionError` is defined outside src/; the
only variant relevant to the coercion layer is the coercion error, a single
error value wrapping the underlying codec's human-readable message string
(`CoercionError` in the spec). -/
inductive FunctionError where
  | Coercion (inner : String)
deriving Repr, DecidableEq

/-- Rust's `v as char` on a `u8`: the byte value becomes its own character
code point (from `input.iter().map(|&v| v as char)` in coercions.rs). -/
def byteToChar (b : Nat) : Char := Char.ofNat b

/-- Rust's `ch as u8` on a `char`: the code point truncated to one byte
(from `.chars().map(|ch| ch as u8)` in coercions.rs). -/
def charToByte (c : Char) : Nat := c.toNat % 256

/-- The decode-side reinterpretation
`input.iter().map(|&v| v as char).collect::<String>()`. -/
def bytesToString (input : List Nat) : String :=
  String.mk (input.map byteToChar)

/-- The encode-side conversion `string.chars().map(|ch| ch as u8).collect()`. -/
def stringToBytes (s : String) : List Nat :=
  s.data.map charToByte

/-- ContentType represents the supported content types in the FDK
(coercions.rs lines 5-12). -/
inductive ContentType where
  | JSON
  | YAML
  | XML
  | Plain
  | URLEncoded
deriving Repr, DecidableEq

def JSON_MIME : String := "application/json"
def TEXT_MIME : String := "text/plain"
def FORM_MIME : String := "application/x-www-form-urlencoded"
def XML_TEXT_MIME : String := "text/xml"
def XML_APP_MIME : String := "application/xml"
def YAML_TEXT_MIME : String := "text/yaml"
def YAML_APP_MIME : String := "application/yaml"

/-- `ContentType::from_str` (coercions.rs lines 23-32): first-match
dispatch on exact string equality, defaulting to JSON. -/
def ContentType.from_str (s : String) : ContentType :=
  if s = JSON_MIME then ContentType.JSON
  else if s = YAML_TEXT_MIME then ContentType.YAML
  else if s = YAML_APP_MIME then ContentType.YAML
  else if s = XML_TEXT_MIME then ContentType.XML
  else if s = XML_APP_MIME then ContentType.XML
  else if s = TEXT_MIME then ContentType.Plain
  else if s = FORM_MIME then ContentType.URLEncoded
  else ContentType.JSON

/-- `ContentType::as_header_value` (coercions.rs lines 34-42). -/
def ContentType.as_header_value : ContentType → String
  | ContentType.JSON => JSON_MIME
  | ContentType.YAML => YAML_TEXT_MIME
  | ContentType.XML => XML_APP_MIME
  | ContentType.Plain => TEXT_MIME
  | ContentType.URLEncoded => FORM_MIME

/-- The format-specific deserialization entry points the generic
`InputCoercible` implementation calls for a type `T`: these stand for the
external crates serde_plain, serde_json, serde_xml_rs, serde_yaml and
serde_urlencoded specialised at `T` (string-input crates take a `String`,
slice-input crates take raw bytes, exactly as in coercions.rs). -/
structure Deserializer (T : Type) where
  plain_from_str : String → Except String T
  json_from_slice : List Nat → Except String T
  xml_from_str : String → Except String T
  yaml_from_slice : List Nat → Except String T
  urlencoded_from_str : String → Except String T

/-- The format-specific serialization entry points the generic
`OutputCoercible` implementation calls for a type `T` (string-output crates
return a `String`, vec-output crates return raw bytes). -/
structure Serializer (T : Type) where
  json_to_vec : T → Except String (List Nat)
  xml_to_string : T → Except String String
  yaml_to_vec : T → Except String (List Nat)
  plain_to_string : T → Except String String
  urlencoded_to_string : T → Except String String

/-- `try_decode_plain` (coercions.rs lines 64-71). -/
def try_decode_plain {T : Type} (D : Deserializer T) (input : List Nat) :
    Except FunctionError T :=
  match D.plain_from_str (bytesToString input) with
  | Except.ok t => Except.ok t
  | Except.error e => Except.error (FunctionError.Coercion e)

/-- `try_decode_json` (coercions.rs lines 73-80). -/
def try_decode_json {T : Type} (D : Deserializer T) (input : List Nat) :
    Except FunctionError T :=
  match D.json_from_slice input with
  | Except.ok t => Except.ok t
  | Except.error e => Except.error (FunctionError.Coercion e)

/-- `try_decode_xml` (coercions.rs lines 82-89). -/
def try_decode_xml {T : Type} (D : Deserializer T) (input : List Nat) :
    Except FunctionError T :=
  match D.xml_from_str (bytesToString input) with
  | Except.ok t => Except.ok t
  | Except.error e => Except.error (FunctionError.Coercion e)

/-- `try_decode_yaml` (coercions.rs lines 91-98). -/
def try_decode_yaml {T : Type} (D : Deserializer T) (input : List Nat) :
    Except FunctionError T :=
  match D.yaml_from_slice input with
  | Except.ok t => Except.ok t
  | Except.error e => Except.error (FunctionError.Coercion e)

/-- `try_decode_urlencoded` (coercions.rs lines 100-107). -/
def try_decode_urlencoded {T : Type} (D : Deserializer T) (input : List Nat) :
    Except FunctionError T :=
  match D.urlencoded_from_str (bytesToString input) with
  | Except.ok t => Except.ok t
  | Except.error e => Except.error (FunctionError.Coercion e)

/-- `try_encode_json` (coercions.rs lines 111-118). -/
def try_encode_json {T : Type} (S : Serializer T) (v : T) :
    Except FunctionError (List Nat) :=
  match S.json_to_vec v with
  | Except.ok vector => Except.ok vector
  | Except.error e => Except.error (FunctionError.Coercion e)

/-- `try_encode_xml` (coercions.rs lines 119-126). -/
def try_encode_xml {T : Type} (S : Serializer T) (v : T) :
    Except FunctionError (List Nat) :=
  match S.xml_to_string v with
  | Except.ok vector => Except.ok (stringToBytes vector)
  | Except.error e => Except.error (FunctionError.Coercion e)

/-- `try_encode_yaml` (coercions.rs lines 127-134). -/
def try_encode_yaml {T : Type} (S : Serializer T) (v : T) :
    Except FunctionError (List Nat) :=
  match S.yaml_to_vec v with
  | Except.ok vector => Except.ok vector
  | Except.error e => Except.error (FunctionError.Coercion e)

/-- `try_encode_plain` (coercions.rs lines 136-143). -/
def try_encode_plain {T : Type} (S : Serializer T) (v : T) :
    Except FunctionError (List Nat) :=
  match S.plain_to_string v with
  | Except.ok vector => Except.ok (stringToBytes vector)
  | Except.error e => Except.error (FunctionError.Coercion e)

/-- `try_encode_urlencoded` (coercions.rs lines 145-152). -/
def try_encode_urlencoded {T : Type} (S : Serializer T) (v : T) :
    Except FunctionError (List Nat) :=
  match S.urlencoded_to_string v with
  | Except.ok vector => Except.ok (stringToBytes vector)
  | Except.error e => Except.error (FunctionError.Coercion e)

/-- Model of the external serde_plain crate specialised at target type
`String`: deserializing a `String` from a plain string returns the string
itself and cannot fail, and serializing a `String` returns the string
itself.  (The repository's own test `empty_text_plain`, coercions.rs lines
161-169, exercises exactly this behaviour on empty input.) -/
def serde_plain_from_str_string (s : String) : Except String String :=
  Except.ok s

/-- Model of serde_plain serialization at target type `String` (see
`serde_plain_from_str_string`). -/
def serde_plain_to_string_string (s : String) : Except String String :=
  Except.ok s

/-- The double-quote character (code point 34). -/
def quoteChar : Char := Char.ofNat 34

/-- The backslash character (code point 92). -/
def backslashChar : Char := Char.ofNat 92

/-- The opening-brace character (code point 123). -/
def lbraceChar : Char := Char.ofNat 123

/-- Skip the JSON whitespace characters (space, tab, newline, carriage
return), as the serde_json parser does before reading a value. -/
def jsonSkipWs : List Char → List Char
  | [] => []
  | c :: rest =>
    if c = ' ' ∨ c = '\t' ∨ c = '\n' ∨ c = '\r' then jsonSkipWs rest
    else c :: rest

/-- Read the body of a JSON string literal up to the closing quote.  The
model covers escape-free literals only (a backslash makes it give up),
which is all the concrete inputs used here need. -/
def jsonReadStringBody : List Char → Option (List Char × List Char)
  | [] => none
  | c :: rest =>
    if c = quoteChar then some ([], rest)
    else if c = backslashChar then none
    else
      match jsonReadStringBody rest with
      | some (s, r) => some (c :: s, r)
      | none => none

/-- Model of the external serde_json crate deserializing a `String` from a
byte slice (`serde_json::from_slice::<String>`): after skipping leading
whitespace the input must be a JSON string literal; empty input is an
end-of-file error, and any other leading token (such as the brace that
opens a map) is an error because the target type expects a string.  Error
messages mirror serde_json's and are non-empty. -/
def serde_json_from_slice_string (input : List Nat) : Except String String :=
  match jsonSkipWs (input.map byteToChar) with
  | [] => Except.error "EOF while parsing a value at line 1 column 0"
  | c :: rest =>
    if c = quoteChar then
      match jsonReadStringBody rest with
      | some (s, r) =>
        match jsonSkipWs r with
        | [] => Except.ok (String.mk s)
        | _ => Except.error "trailing characters"
      | none => Except.error "EOF while parsing a string"
    else if c = lbraceChar then
      Except.error "key must be a string at line 1 column 2"
    else Except.error "expected value"

/-- Model of `serde_json::to_vec::<String>`: wrap the string in quotes and
emit its bytes.  The model covers strings of printable ASCII characters
that need no escaping (it refuses others), which is all the concrete
values used here need. -/
def serde_json_to_vec_string (s : String) : Except String (List Nat) :=
  if s.data.all (fun c => 31 < c.toNat ∧ c.toNat < 127 ∧ c ≠ quoteChar ∧ c ≠ backslashChar) then
    Except.ok (stringToBytes (String.mk ([quoteChar] ++ s.data ++ [quoteChar])))
  else Except.error "string requires escaping, outside this model"

/-- A `Deserializer` record for target type `String` built from the
concrete codec models above; the yaml, xml and urlencoded components are
simple stand-ins used only to instantiate generic theorems at concrete
inputs. -/
def stringDeserializer : Deserializer String :=
  { plain_from_str := serde_plain_from_str_string
    json_from_slice := serde_json_from_slice_string
    xml_from_str := fun s => Except.ok s
    yaml_from_slice := fun bs => Except.ok (bytesToString bs)
    urlencoded_from_str := fun s => Except.ok s }

/-- A `Serializer` record for target type `String` matching
`stringDeserializer`. -/
def stringSerializer : Serializer String :=
  { json_to_vec := serde_json_to_vec_string
    xml_to_string := fun s => Except.ok s
    yaml_to_vec := fun s => Except.ok (stringToBytes s)
    plain_to_string := serde_plain_to_string_string
    urlencoded_to_string := fun s => Except.ok s }

/-- The bytes of an ASCII string literal, as Rust's `as_bytes()` produces
them for ASCII content (one byte per character). -/
def asciiBytes (s : String) : List Nat :=
  s.data.map Char.toNat

/-- The uniform error wrapping every codec path applies: an `Ok` value
passes through, an `Err` is wrapped as a coercion error carrying the
codec's message string unmodified. -/
def coerceResult {α : Type} : Except String α → Except FunctionError α
  | Except.ok t => Except.ok t
  | Except.error e => Except.error (FunctionError.Coercion e)

section ByteCharLemmas

set_option maxRecDepth 8192

/-- Every byte value is its own character code point and comes back
unchanged through the encode-side truncation. -/
theorem charToByte_byteToChar : ∀ b : Nat, b < 256 → charToByte (byteToChar b) = b := by
  decide

/-- Every byte value maps to the character with exactly that code point. -/
theorem byteToChar_toNat : ∀ b : Nat, b < 256 → (byteToChar b).toNat = b := by
  decide

/-- A character whose code point fits in one byte survives the
char-to-byte-to-char round trip. -/
theorem byteToChar_charToByte (c : Char) (h : c.toNat < 256) :
    byteToChar (charToByte c) = c := by
  unfold byteToChar charToByte
  rw [Nat.mod_eq_of_lt h]
  exact Char.ofNat_toNat c

end ByteCharLemmas

/-- Decoding bytes to a string and back to bytes is the identity on byte
buffers whose entries are below 256. -/
theorem stringToBytes_bytesToString (input : List Nat) (h : ∀ b ∈ input, b < 256) :
    stringToBytes (bytesToString input) = input := by
  unfold stringToBytes bytesToString
  induction input with
  | nil => rfl
  | cons b rest ih =>
    simp only [List.map_cons, String.data]
    rw [charToByte_byteToChar b (h b (List.mem_cons_self b rest))]
    have := ih (fun x hx => h x (List.mem_cons_of_mem b hx))
    simpa using this

/-- Encoding a byte-ranged string to bytes and decoding back is the
identity. -/
theorem bytesToString_stringToBytes (s : String) (h : ∀ c ∈ s.data, c.toNat < 256) :
    bytesToString (stringToBytes s) = s := by
  unfold stringToBytes bytesToString
  cases s with
  | mk data =>
    simp only [String.data] at h ⊢
    congr 1
    induction data with
    | nil => rfl
    | cons c rest ih =>
      simp only [List.map_cons]
      rw [byteToChar_charToByte c (h c (List.mem_cons_self c rest))]
      have := ih (fun x hx => h x (List.mem_cons_of_mem c hx))
      simpa using this

/-- Claim C2: `ContentType::from_str` is total, matches the inbound MIME
string against the accepted-inbound table by exact case-sensitive equality
(JSON, YAML, XML, Plain, URLEncoded rows as in the table), and returns
JSON for every string not in the table, including the empty string; it has
no error path (it is a plain function into `ContentType`). -/
theorem from_str_total_table_and_default :
    ContentType.from_str "application/json" = ContentType.JSON ∧
    ContentType.from_str "text/yaml" = ContentType.YAML ∧
    ContentType.from_str "application/yaml" = ContentType.YAML ∧
    ContentType.from_str "text/xml" = ContentType.XML ∧
    ContentType.from_str "application/xml" = ContentType.XML ∧
    ContentType.from_str "text/plain" = ContentType.Plain ∧
    ContentType.from_str "application/x-www-form-urlencoded" = ContentType.URLEncoded ∧
    ContentType.from_str "" = ContentType.JSON ∧
    (∀ s : String,
      s ≠ "application/json" → s ≠ "text/yaml" → s ≠ "application/yaml" →
      s ≠ "text/xml" → s ≠ "application/xml" → s ≠ "text/plain" →
      s ≠ "application/x-www-form-urlencoded" →
      ContentType.from_str s = ContentType.JSON) := by
  refine ⟨rfl, rfl, rfl, rfl, rfl, rfl, rfl, rfl, ?_⟩
  intro s h1 h2 h3 h4 h5 h6 h7
  simp [ContentType.from_str, JSON_MIME, YAML_TEXT_MIME, YAML_APP_MIME,
    XML_TEXT_MIME, XML_APP_MIME, TEXT_MIME, FORM_MIME, h1, h2, h3, h4, h5, h6, h7]

/-- Witness for C2: the untabled string "text/html" classifies as JSON. -/
theorem from_str_total_table_and_default_witness :
    ContentType.from_str "text/html" = ContentType.JSON :=
  from_str_total_table_and_default.2.2.2.2.2.2.2.2 "text/html"
    (by decide) (by decide) (by decide) (by decide) (by decide) (by decide) (by decide)

/-- Claim C3: `ContentType::as_header_value` is total and returns exactly
the canonical outbound MIME string for each of the five variants. -/
theorem as_header_value_canonical :
    ContentType.as_header_value ContentType.JSON = "application/json" ∧
    ContentType.as_header_value ContentType.YAML = "text/yaml" ∧
    ContentType.as_header_value ContentType.XML = "application/xml" ∧
    ContentType.as_header_value ContentType.Plain = "text/plain" ∧
    ContentType.as_header_value ContentType.URLEncoded =
      "application/x-www-form-urlencoded" :=
  ⟨rfl, rfl, rfl, rfl, rfl⟩

/-- Claim C8: for every accepted inbound MIME string, classification
followed by re-canonicalization yields the table's canonical outbound
MIME for the classified logical type. -/
theorem canonical_mime_of_classify :
    (ContentType.from_str "application/json").as_header_value = "application/json" ∧
    (ContentType.from_str "text/yaml").as_header_value = "text/yaml" ∧
    (ContentType.from_str "application/yaml").as_header_value = "text/yaml" ∧
    (ContentType.from_str "text/xml").as_header_value = "application/xml" ∧
    (ContentType.from_str "application/xml").as_header_value = "application/xml" ∧
    (ContentType.from_str "text/plain").as_header_value = "text/plain" ∧
    (ContentType.from_str "application/x-www-form-urlencoded").as_header_value =
      "application/x-www-form-urlencoded" :=
  ⟨rfl, rfl, rfl, rfl, rfl, rfl, rfl⟩

/-- Claim C4: decoding an empty byte buffer as plain text with a string
target succeeds and yields the empty string; it is not a parse error. -/
theorem decode_plain_empty_ok :
    try_decode_plain stringDeserializer [] = Except.ok "" := rfl

/-- Claim C9: decoding an empty byte buffer on the JSON path with a string
target fails with a coercion error (the codec reports an unexpected end of
input) and the message is non-empty, in contrast with the Plain path,
which succeeds with the empty string on the same input. -/
theorem decode_json_empty_fails :
    try_decode_json stringDeserializer [] =
      Except.error (FunctionError.Coercion "EOF while parsing a value at line 1 column 0") ∧
    "EOF while parsing a value at line 1 column 0" ≠ "" ∧
    try_decode_plain stringDeserializer [] = Except.ok "" :=
  ⟨rfl, by decide, rfl⟩

/-- Claim C5: decoding the bytes of the string starting with an opening
brace followed by "not valid json" on the JSON path fails with a coercion
error whose message is non-empty; and in general, whenever the underlying
codec fails on any of the five decode paths, the decode operation returns
a coercion error carrying the codec's own error message unmodified. -/
theorem decode_failure_wraps_codec_message :
    (∃ e, try_decode_json stringDeserializer (asciiBytes "\x7bnot valid json") =
        Except.error (FunctionError.Coercion e) ∧ e ≠ "") ∧
    (∀ (T : Type) (D : Deserializer T) (input : List Nat) (e : String),
      D.plain_from_str (bytesToString input) = Except.error e →
      try_decode_plain D input = Except.error (FunctionError.Coercion e)) ∧
    (∀ (T : Type) (D : Deserializer T) (input : List Nat) (e : String),
      D.json_from_slice input = Except.error e →
      try_decode_json D input = Except.error (FunctionError.Coercion e)) ∧
    (∀ (T : Type) (D : Deserializer T) (input : List Nat) (e : String),
      D.xml_from_str (bytesToString input) = Except.error e →
      try_decode_xml D input = Except.error (FunctionError.Coercion e)) ∧
    (∀ (T : Type) (D : Deserializer T) (input : List Nat) (e : String),
      D.yaml_from_slice input = Except.error e →
      try_decode_yaml D input = Except.error (FunctionError.Coercion e)) ∧
    (∀ (T : Type) (D : Deserializer T) (input : List Nat) (e : String),
      D.urlencoded_from_str (bytesToString input) = Except.error e →
      try_decode_urlencoded D input = Except.error (FunctionError.Coercion e)) := by
  refine ⟨⟨"key must be a string at line 1 column 2", rfl, by decide⟩, ?_, ?_, ?_, ?_, ?_⟩
  all_goals
    intro T D input e h
    simp only [try_decode_plain, try_decode_json, try_decode_xml,
      try_decode_yaml, try_decode_urlencoded, h]

/-- Witness for C5: a concrete codec failure (the JSON model on the input
consisting of the single byte of "x") is wrapped unmodified. -/
theorem decode_failure_wraps_codec_message_witness :
    try_decode_json stringDeserializer (asciiBytes "x") =
      Except.error (FunctionError.Coercion "expected value") :=
  decode_failure_wraps_codec_message.2.2.1 String stringDeserializer
    (asciiBytes "x") "expected value" rfl

/-- Claim C6: on the decode side, the Plain, XML and URLEncoded paths
first reinterpret the byte buffer as a string via the one-char-per-byte
mapping and hand that string to the codec, while the JSON and YAML paths
hand the codec the raw byte buffer directly; and the reinterpretation
indeed treats each byte value as its own character code point. -/
theorem decode_side_byte_reinterpretation :
    (∀ (T : Type) (D : Deserializer T) (input : List Nat),
      try_decode_plain D input = coerceResult (D.plain_from_str (bytesToString input)) ∧
      try_decode_xml D input = coerceResult (D.xml_from_str (bytesToString input)) ∧
      try_decode_urlencoded D input =
        coerceResult (D.urlencoded_from_str (bytesToString input)) ∧
      try_decode_json D input = coerceResult (D.json_from_slice input) ∧
      try_decode_yaml D input = coerceResult (D.yaml_from_slice input)) ∧
    (∀ input : List Nat, (∀ b ∈ input, b < 256) →
      (bytesToString input).data.map Char.toNat = input) := by
  constructor
  · intro T D input
    exact ⟨rfl, rfl, rfl, rfl, rfl⟩
  · intro input h
    unfold bytesToString
    induction input with
    | nil => rfl
    | cons b rest ih =>
      simp only [List.map_cons, String.data]
      rw [byteToChar_toNat b (h b (List.mem_cons_self b rest))]
      have := ih (fun x hx => h x (List.mem_cons_of_mem b hx))
      simpa using this

/-- Witness for C6: the factoring at a concrete decoder and input, and the
code-point property at the concrete buffer [104, 105]. -/
theorem decode_side_byte_reinterpretation_witness :
    try_decode_plain stringDeserializer (asciiBytes "hi") =
      coerceResult (stringDeserializer.plain_from_str
        (bytesToString (asciiBytes "hi"))) ∧
    (bytesToString [104, 105]).data.map Char.toNat = [104, 105] :=
  ⟨(decode_side_byte_reinterpretation.1 String stringDeserializer (asciiBytes "hi")).1,
   decode_side_byte_reinterpretation.2 [104, 105] (by decide)⟩

/-- Claim C7: on the encode side, the XML, Plain and URLEncoded paths turn
the codec's output string into bytes via the one-byte-per-char mapping
(while JSON and YAML pass the codec's bytes through), and that mapping is
the exact inverse of the decode-side reinterpretation: every byte value
survives byte-to-char-to-byte, and every string of single-byte code
points survives string-to-bytes-to-string. -/
theorem encode_side_inverse_reinterpretation :
    (∀ (T : Type) (S : Serializer T) (v : T),
      try_encode_xml S v =
        Except.map stringToBytes (coerceResult (S.xml_to_string v)) ∧
      try_encode_plain S v =
        Except.map stringToBytes (coerceResult (S.plain_to_string v)) ∧
      try_encode_urlencoded S v =
        Except.map stringToBytes (coerceResult (S.urlencoded_to_string v)) ∧
      try_encode_json S v = coerceResult (S.json_to_vec v) ∧
      try_encode_yaml S v = coerceResult (S.yaml_to_vec v)) ∧
    (∀ b : Nat, b < 256 → charToByte (byteToChar b) = b) ∧
    (∀ s : String, (∀ c ∈ s.data, c.toNat < 256) →
      bytesToString (stringToBytes s) = s) := by
  refine ⟨?_, charToByte_byteToChar, bytesToString_stringToBytes⟩
  intro T S v
  refine ⟨?_, ?_, ?_, ?_, ?_⟩
  all_goals
    simp only [try_encode_xml, try_encode_plain, try_encode_urlencoded,
      try_encode_json, try_encode_yaml, coerceResult]
    split <;> simp_all [coerceResult, Except.map]

/-- Witness for C7: the factoring at a concrete serializer and value, the
byte round trip at 200, and the string round trip at "ok". -/
theorem encode_side_inverse_reinterpretation_witness :
    try_encode_plain stringSerializer "hi" =
      Except.map stringToBytes (coerceResult (stringSerializer.plain_to_string "hi")) ∧
    charToByte (byteToChar 200) = 200 ∧
    bytesToString (stringToBytes "ok") = "ok" :=
  ⟨(encode_side_inverse_reinterpretation.1 String stringSerializer "hi").2.1,
   encode_side_inverse_reinterpretation.2.1 200 (by decide),
   encode_side_inverse_reinterpretation.2.2 "ok" (by decide)⟩

/-- Claim C1: decode after encode is the identity on representable values
for every logical content type.  For JSON and YAML the layer passes the
codec's bytes through unchanged, so the round trip holds whenever the
codec itself round-trips on the value; for XML and URLEncoded the layer
additionally pipes the codec's text through the char-to-byte and
byte-to-char reinterpretations, and the round trip holds whenever the
codec round-trips and its text stays within single-byte code points
(which ASCII output always does); for Plain the round trip holds for
every ASCII string under the serde_plain model. -/
theorem roundtrip_format_preserving :
    (∀ (T : Type) (D : Deserializer T) (S : Serializer T) (v : T) (bs : List Nat),
      S.json_to_vec v = Except.ok bs →
      D.json_from_slice bs = Except.ok v →
      try_encode_json S v = Except.ok bs ∧
      try_decode_json D bs = Except.ok v) ∧
    (∀ (T : Type) (D : Deserializer T) (S : Serializer T) (v : T) (bs : List Nat),
      S.yaml_to_vec v = Except.ok bs →
      D.yaml_from_slice bs = Except.ok v →
      try_encode_yaml S v = Except.ok bs ∧
      try_decode_yaml D bs = Except.ok v) ∧
    (∀ (T : Type) (D : Deserializer T) (S : Serializer T) (v : T) (text : String),
      S.xml_to_string v = Except.ok text →
      (∀ c ∈ text.data, c.toNat < 256) →
      D.xml_from_str text = Except.ok v →
      ∃ bs, try_encode_xml S v = Except.ok bs ∧
        try_decode_xml D bs = Except.ok v) ∧
    (∀ (T : Type) (D : Deserializer T) (S : Serializer T) (v : T) (text : String),
      S.urlencoded_to_string v = Except.ok text →
      (∀ c ∈ text.data, c.toNat < 256) →
      D.urlencoded_from_str text = Except.ok v →
      ∃ bs, try_encode_urlencoded S v = Except.ok bs ∧
        try_decode_urlencoded D bs = Except.ok v) ∧
    (∀ s : String, (∀ c ∈ s.data, c.toNat < 128) →
      ∃ bs, try_encode_plain stringSerializer s = Except.ok bs ∧
        try_decode_plain stringDeserializer bs = Except.ok s) := by
  refine ⟨?_, ?_, ?_, ?_, ?_⟩
  · intro T D S v bs he hd
    simp only [try_encode_json, try_decode_json, he, hd]
    exact ⟨trivial, trivial⟩
  · intro T D S v bs he hd
    simp only [try_encode_yaml, try_decode_yaml, he, hd]
    exact ⟨trivial, trivial⟩
  · intro T D S v text he hb hd
    refine ⟨stringToBytes text, ?_, ?_⟩
    · simp only [try_encode_xml, he]
    · simp only [try_decode_xml, bytesToString_stringToBytes text hb, hd]
  · intro T D S v text he hb hd
    refine ⟨stringToBytes text, ?_, ?_⟩
    · simp only [try_encode_urlencoded, he]
    · simp only [try_decode_urlencoded, bytesToString_stringToBytes text hb, hd]
  · intro s hs
    refine ⟨stringToBytes s, rfl, ?_⟩
    have hb : ∀ c ∈ s.data, c.toNat < 256 :=
      fun c hc => Nat.lt_trans (hs c hc) (by decide)
    simp only [try_decode_plain, stringDeserializer, serde_plain_from_str_string,
      bytesToString_stringToBytes s hb]

/-- Witness for C1: the round trip at concrete values on all five paths,
instantiated with the string codec models ("Ann" for JSON, "a" for YAML
and XML, "k=v" for URLEncoded, "Hello world!" for Plain). -/
theorem roundtrip_format_preserving_witness :
    (try_encode_json stringSerializer "Ann" = Except.ok [34, 65, 110, 110, 34] ∧
     try_decode_json stringDeserializer [34, 65, 110, 110, 34] = Except.ok "Ann") ∧
    (try_encode_yaml stringSerializer "a" = Except.ok [97] ∧
     try_decode_yaml stringDeserializer [97] = Except.ok "a") ∧
    (∃ bs, try_encode_xml stringSerializer "a" = Except.ok bs ∧
      try_decode_xml stringDeserializer bs = Except.ok "a") ∧
    (∃ bs, try_encode_urlencoded stringSerializer "k=v" = Except.ok bs ∧
      try_decode_urlencoded stringDeserializer bs = Except.ok "k=v") ∧
    (∃ bs, try_encode_plain stringSerializer "Hello world!" = Except.ok bs ∧
      try_decode_plain stringDeserializer bs = Except.ok "Hello world!") :=
  ⟨roundtrip_format_preserving.1 String stringDeserializer stringSerializer
      "Ann" [34, 65, 110, 110, 34] rfl rfl,
   roundtrip_format_preserving.2.1 String stringDeserializer stringSerializer
      "a" [97] rfl rfl,
   roundtrip_format_preserving.2.2.1 String stringDeserializer stringSerializer
      "a" "a" rfl (by decide) rfl,
   roundtrip_format_preserving.2.2.2.1 String stringDeserializer stringSerializer
      "k=v" "k=v" rfl (by decide) rfl,
   roundtrip_format_preserving.2.2.2.2 "Hello world!" (by decide)⟩

/-- Claim C10: for every byte buffer (all byte values 0 through 255, not
only ASCII), decoding on the Plain path with a string target succeeds —
it never errors — yielding the byte-per-char string, and re-encoding that
string on the Plain path returns exactly the original buffer. -/
theorem plain_roundtrip_identity (b : List Nat) (h : ∀ x ∈ b, x < 256) :
    try_decode_plain stringDeserializer b = Except.ok (bytesToString b) ∧
    try_encode_plain stringSerializer (bytesToString b) = Except.ok b := by
  constructor
  · rfl
  · simp only [try_encode_plain, stringSerializer, serde_plain_to_string_string,
      stringToBytes_bytesToString b h]

/-- Witness for C10: the round trip at the concrete buffer [0, 128, 255],
which contains non-ASCII byte values. -/
theorem plain_roundtrip_identity_witness :
    try_decode_plain stringDeserializer [0, 128, 255] =
      Except.ok (bytesToString [0, 128, 255]) ∧
    try_encode_plain stringSerializer (bytesToString [0, 128, 255]) =
      Except.ok [0, 128, 255] :=
  plain_roundtrip_identity [0, 128, 255] (by decide)
